import Mathlib

/-!
Verification of the chat-input ("Composer") component of Generative-AI-2.0
(src/components/ChatInput.tsx) against its natural-language specification.

The component is embedded shallowly: React state and props become fields of
`ComposerState`; event handlers become pure functions from states to states
plus explicit effect lists (MessageSender invocations, revoked object URLs).
The JavaScript string builtins used by the component (`String.prototype.trim`,
`String.prototype.split(',')`) are modelled by structurally recursive Lean
functions so that concrete instances evaluate in the kernel.
-/

namespace ChatInput

/-- JS `String.prototype.trim`: strips leading and trailing whitespace. -/
def jsTrim (s : String) : String :=
  String.mk (((s.data.dropWhile Char.isWhitespace).reverse.dropWhile Char.isWhitespace).reverse)

/-- Helper for `jsSplitComma`: structural recursion over the character list. -/
def splitCommaAux : List Char → List Char → List String
  | [], acc => [String.mk acc.reverse]
  | c :: cs, acc =>
      if c = ',' then String.mk acc.reverse :: splitCommaAux cs []
      else splitCommaAux cs (c :: acc)

/-- JS `dataUrl.split(',')`. -/
def jsSplitComma (s : String) : List String := splitCommaAux s.data []

/-- A selected file, as far as the component observes it: the data URL the
`FileReader` produces for it (`reader.result`) and its MIME type (`file.type`).
The field `type` keeps the DOM property name. -/
structure JFile where
  dataUrl : String
  type : String
  deriving DecidableEq

/-- The `inlineData` payload of a `Part` (src/types). -/
structure InlineData where
  data : String
  mimeType : String
  deriving DecidableEq

/-- A `Part` as built by `handleSend` (`{ inlineData: { data, mimeType } }`). -/
structure Part where
  inlineData : InlineData
  deriving DecidableEq

/-- The encoding of one attachment in `handleSend`:
`base64 = reader.result.split(',')[1]`, then
`{ inlineData: { data: base64, mimeType: file.type } }`.
(When the data URL has no comma, JS `[1]` is `undefined`; modelled as `""`,
a case no well-formed data URL hits.) -/
def encodeFile (f : JFile) : Part :=
  { inlineData := { data := (jsSplitComma f.dataUrl).getD 1 "", mimeType := f.type } }

/-- One invocation of the `onSendMessage` prop (the MessageSender collaborator):
`onSendMessage(text, parts?)`, the second argument `undefined` (`none`) when
there are no image parts. -/
structure SendCall where
  text : String
  parts : Option (List Part)
  deriving DecidableEq

/-- The component's state and props observed by its handlers:
`value`/`onChange` (the draft text, lifted to the parent), the
`selectedImages` and `imagePreviews` state hooks, the `isListening`,
`showModelDropdown` and `isExpanded` state hooks, the `selectedModel` prop
and the caller-owned `isLoading` prop. -/
structure ComposerState where
  value : String
  selectedImages : List JFile
  imagePreviews : List String
  isListening : Bool
  showModelDropdown : Bool
  isExpanded : Bool
  selectedModel : String
  isLoading : Bool
  deriving DecidableEq

/-- The continuation of a `handleSend` call suspended at its first
`await` (inside the `FileReader` loop): the draft text and image list it
captured from the render closure when it was entered. -/
structure PendingSend where
  value : String
  images : List JFile
  deriving DecidableEq

/-- Result of running (part of) `handleSend`: the updated state, the
`onSendMessage` invocations made, the object URLs revoked, and the suspended
continuation if the call parked at an `await`. -/
structure SendOutcome where
  state : ComposerState
  calls : List SendCall
  revoked : List String
  pending : Option PendingSend
  deriving DecidableEq

/-- The clearing performed after `onSendMessage`:
`onChange(''); setSelectedImages([]); setImagePreviews([])`.
No `URL.revokeObjectURL` call appears here in the source. -/
def clearDraft (s : ComposerState) : ComposerState :=
  { s with value := "", selectedImages := [], imagePreviews := [] }

/-- The synchronous prefix of `handleSend`, up to its first suspension point.
Gate: `if ((!value.trim() && selectedImages.length === 0) || isLoading) return;`.
With no attachments the `for` loop has no iteration, so the whole body runs
synchronously; with at least one attachment the call suspends at the first
`await`ed `FileReader`, capturing `value` and `selectedImages` from the
closure. -/
def sendPhaseA (s : ComposerState) : SendOutcome :=
  if (jsTrim s.value = "" ∧ s.selectedImages = []) ∨ s.isLoading = true then
    ⟨s, [], [], none⟩
  else if s.selectedImages = [] then
    ⟨clearDraft s, [⟨s.value, none⟩], [], none⟩
  else
    ⟨s, [], [], some ⟨s.value, s.selectedImages⟩⟩

/-- The resumption of a suspended `handleSend`: finishes encoding the captured
images, invokes `onSendMessage(value, imageParts.length > 0 ? imageParts :
undefined)` and clears the (current) draft. There is no re-check of the gate
after the `await`. -/
def sendPhaseB (s : ComposerState) (p : PendingSend) : SendOutcome :=
  ⟨clearDraft s,
   [⟨p.value, if p.images = [] then none else some (p.images.map encodeFile)⟩],
   [], none⟩

/-- A full `handleSend` call run to completion with no interleaved events. -/
def handleSend (s : ComposerState) : SendOutcome :=
  let a := sendPhaseA s
  match a.pending with
  | none => a
  | some p =>
      let b := sendPhaseB a.state p
      ⟨b.state, a.calls ++ b.calls, a.revoked ++ b.revoked, none⟩

/-- The caller's documented reaction to an `onSendMessage` invocation: it owns
`isLoading` and raises it when the send is dispatched. -/
def callerStep (s : ComposerState) (calls : List SendCall) : ComposerState :=
  if calls = [] then s else { s with isLoading := true }

/-- Events of the single-threaded UI event loop relevant to double-submit:
a click/Enter invoking `handleSend`, and the event-loop resumption of the
oldest suspended `handleSend`. -/
inductive UIEvent where
  | clickSend : UIEvent
  | resumeSend : UIEvent
  deriving DecidableEq

/-- The event loop's view: component state, FIFO queue of suspended sends,
and the accumulated effect log. -/
structure World where
  comp : ComposerState
  pendings : List PendingSend
  calls : List SendCall
  revoked : List String
  deriving DecidableEq

/-- One event-loop step. -/
def step (w : World) : UIEvent → World
  | UIEvent.clickSend =>
      let o := sendPhaseA w.comp
      { comp := callerStep o.state o.calls,
        pendings := w.pendings ++ o.pending.toList,
        calls := w.calls ++ o.calls,
        revoked := w.revoked ++ o.revoked }
  | UIEvent.resumeSend =>
      match w.pendings with
      | [] => w
      | p :: rest =>
          let o := sendPhaseB w.comp p
          { comp := callerStep o.state o.calls,
            pendings := rest,
            calls := w.calls ++ o.calls,
            revoked := w.revoked ++ o.revoked }

/-- Run a sequence of UI events. -/
def run (w : World) (es : List UIEvent) : World := es.foldl step w

/-- Sample attachment (a 3-byte PNG read as a data URL). -/
def fileA : JFile := ⟨"data:image/png;base64,QUFB", "image/png"⟩

/-- Second sample attachment. -/
def fileB : JFile := ⟨"data:image/jpeg;base64,QkJC", "image/jpeg"⟩

/-- A state with a non-empty draft: text "hi", one attachment with a live
preview URL, nothing loading. -/
def sampleState : ComposerState :=
  ⟨"hi", [fileA], ["blob:p1"], false, false, false, "gemini-2.5-flash", false⟩

/-- The height-effect computation (the `useEffect` on `[value, isExpanded]`):
expanded mode pins the height at 480px; an empty or whitespace-only draft
gives the 40px minimum; otherwise the height is
`Math.min(scrollHeight, 180)`, where `scrollHeight` is the content height the
browser reports after the height is reset to 40px. -/
def computeHeight (isExpanded : Bool) (value : String) (scrollHeight : Nat) : Nat :=
  if isExpanded = true then 480
  else if value = "" ∨ jsTrim value = "" then 40
  else min scrollHeight 180

/-- The `onresult` speech-recognition handler's draft update:
`onChange(value + (value ? ' ' : '') + transcript)`. -/
def onresultUpdate (value transcript : String) : String :=
  value ++ (if value = "" then "" else " ") ++ transcript

/-- An entry of the `GEMINI_MODELS` registry. -/
structure GeminiModel where
  id : String
  name : String
  deriving DecidableEq

/-- The `GEMINI_MODELS` constant, in declaration order. -/
def GEMINI_MODELS : List GeminiModel :=
  [⟨"gemini-2.5-flash", "Gemini 2.5 Flash"⟩,
   ⟨"gemini-2.0-flash-exp", "Gemini 2.0 Flash Exp"⟩,
   ⟨"gemma-3-27b-it", "Gemma 3 27B"⟩]

/-- `GEMINI_MODELS.find(m => m.id === selectedModel)?.name || 'gemma-3-27b-it'`,
with JS `||` falling through on `undefined` (no match) and on an empty name. -/
def selectedModelName (selectedModel : String) : String :=
  match GEMINI_MODELS.find? (fun m => m.id = selectedModel) with
  | some m => if m.name = "" then "gemma-3-27b-it" else m.name
  | none => "gemma-3-27b-it"

/-- The dropdown entry's `onClick`:
`onModelChange(model.id); setShowModelDropdown(false)`. -/
def selectModel (s : ComposerState) (m : GeminiModel) : ComposerState :=
  { s with selectedModel := m.id, showModelDropdown := false }

/-- JS `list.filter((_, i) => i !== index)`, with the element counter starting
at `i`. The index is an `Int` so that out-of-range includes negative values. -/
def filterNeIdxFrom (index : Int) : Int → List α → List α
  | _, [] => []
  | i, a :: l =>
      if i = index then filterNeIdxFrom index (i + 1) l
      else a :: filterNeIdxFrom index (i + 1) l

/-- JS array subscription `l[index]`: `undefined` (`none`) out of range. -/
def jsIndex (l : List α) (index : Int) : Option α :=
  if h : 0 ≤ index ∧ index.toNat < l.length then some (l.get ⟨index.toNat, h.2⟩)
  else none

/-- The `removeImage(index)` handler: filters index `index` out of both
`selectedImages` and `imagePreviews`, and calls
`URL.revokeObjectURL(prev[index])` — a no-op at the URL store when
`prev[index]` is `undefined`, so the revoked-URL log gets an entry exactly
when `index` is in range. -/
def removeImage (s : ComposerState) (index : Int) : ComposerState × List String :=
  ({ s with
      selectedImages := filterNeIdxFrom index 0 s.selectedImages,
      imagePreviews := filterNeIdxFrom index 0 s.imagePreviews },
   (jsIndex s.imagePreviews index).toList)

/-- "Hello" typed, no attachments. -/
def stateHello : ComposerState :=
  ⟨"Hello", [], [], false, false, false, "gemini-2.5-flash", false⟩

/-- No text, two attachments with live previews. -/
def stateTwoImgs : ComposerState :=
  ⟨"", [fileA, fileB], ["blob:p1", "blob:p2"], false, false, false, "gemini-2.5-flash", false⟩

/-- Non-empty draft while a send is in flight (`isLoading` raised). -/
def stateLoading : ComposerState :=
  ⟨"hi", [fileA], ["blob:p1"], false, false, false, "gemini-2.5-flash", true⟩

/-- A keyboard event as `handleKeyDown` observes it. -/
structure KeyEvent where
  key : String
  shiftKey : Bool
  deriving DecidableEq

/-- `handleKeyDown`: on Enter without Shift, `e.preventDefault()` and
`handleSend()`. Returns (preventDefault called, handleSend triggered). -/
def handleKeyDown (e : KeyEvent) : Bool × Bool :=
  if e.key = "Enter" ∧ e.shiftKey = false then (true, true) else (false, false)

/-! ## Helper lemmas about the embedded handlers -/

theorem jsTrim_empty : jsTrim "" = "" := rfl

theorem sendPhaseA_gated (s : ComposerState)
    (h : (jsTrim s.value = "" ∧ s.selectedImages = []) ∨ s.isLoading = true) :
    sendPhaseA s = ⟨s, [], [], none⟩ := by
  unfold sendPhaseA
  rw [if_pos h]

theorem sendPhaseA_sync (s : ComposerState)
    (h : ¬ ((jsTrim s.value = "" ∧ s.selectedImages = []) ∨ s.isLoading = true))
    (h2 : s.selectedImages = []) :
    sendPhaseA s = ⟨clearDraft s, [⟨s.value, none⟩], [], none⟩ := by
  unfold sendPhaseA
  rw [if_neg h, if_pos h2]

theorem sendPhaseA_suspend (s : ComposerState)
    (h : ¬ ((jsTrim s.value = "" ∧ s.selectedImages = []) ∨ s.isLoading = true))
    (h2 : s.selectedImages ≠ []) :
    sendPhaseA s = ⟨s, [], [], some ⟨s.value, s.selectedImages⟩⟩ := by
  unfold sendPhaseA
  rw [if_neg h, if_neg h2]

theorem handleSend_gated (s : ComposerState)
    (h : (jsTrim s.value = "" ∧ s.selectedImages = []) ∨ s.isLoading = true) :
    handleSend s = ⟨s, [], [], none⟩ := by
  unfold handleSend
  rw [sendPhaseA_gated s h]

theorem handleSend_sync (s : ComposerState)
    (h : ¬ ((jsTrim s.value = "" ∧ s.selectedImages = []) ∨ s.isLoading = true))
    (h2 : s.selectedImages = []) :
    handleSend s = ⟨clearDraft s, [⟨s.value, none⟩], [], none⟩ := by
  unfold handleSend
  rw [sendPhaseA_sync s h h2]

theorem handleSend_async (s : ComposerState)
    (h : ¬ ((jsTrim s.value = "" ∧ s.selectedImages = []) ∨ s.isLoading = true))
    (h2 : s.selectedImages ≠ []) :
    handleSend s
      = ⟨clearDraft s, [⟨s.value, some (s.selectedImages.map encodeFile)⟩], [], none⟩ := by
  unfold handleSend
  rw [sendPhaseA_suspend s h h2]
  simp [sendPhaseB, h2]

theorem sendGate_false_of (s : ComposerState) (h1 : s.isLoading = false)
    (h2 : jsTrim s.value ≠ "" ∨ s.selectedImages ≠ []) :
    ¬ ((jsTrim s.value = "" ∧ s.selectedImages = []) ∨ s.isLoading = true) := by
  rintro (⟨ha, hb⟩ | hl)
  · rcases h2 with h | h
    · exact h ha
    · exact h hb
  · rw [h1] at hl
    exact Bool.false_ne_true hl

theorem step_click_inflight (w : World) (h : w.comp.isLoading = true) :
    step w UIEvent.clickSend = w := by
  cases w with
  | mk c p cs r =>
      simp [step, sendPhaseA_gated c (Or.inr h), callerStep]

theorem step_resume_empty (w : World) (h : w.pendings = []) :
    step w UIEvent.resumeSend = w := by
  cases w with
  | mk c p cs r =>
      rw [show p = [] from h]
      simp [step]

theorem filterNeIdxFrom_out {α : Type} (index : Int) :
    ∀ (l : List α) (i : Int), (index < i ∨ (i + l.length : Int) ≤ index) →
      filterNeIdxFrom index i l = l := by
  intro l
  induction l with
  | nil =>
      intro i _
      rfl
  | cons a l ih =>
      intro i h
      rw [List.length_cons] at h
      have hne : ¬ (i = index) := by omega
      unfold filterNeIdxFrom
      rw [if_neg hne, ih (i + 1) (by push_cast at h ⊢; omega)]

theorem filterNeIdxFrom_in {α : Type} (index : Int) :
    ∀ (l : List α) (i : Int) (k : Nat), index = i + k → k < l.length →
      filterNeIdxFrom index i l = l.eraseIdx k := by
  intro l
  induction l with
  | nil =>
      intro i k _ hk
      simp at hk
  | cons a l ih =>
      intro i k h hk
      cases k with
      | zero =>
          unfold filterNeIdxFrom
          rw [if_pos (by omega), filterNeIdxFrom_out index l (i + 1) (Or.inl (by omega))]
          rfl
      | succ k =>
          rw [List.length_cons] at hk
          unfold filterNeIdxFrom
          rw [if_neg (by omega), ih (i + 1) k (by push_cast at h ⊢; omega) (by omega)]
          rfl

theorem jsIndex_out {α : Type} (l : List α) (index : Int)
    (h : index < 0 ∨ (l.length : Int) ≤ index) :
    jsIndex l index = none := by
  unfold jsIndex
  rw [dif_neg]
  rintro ⟨h0, hlt⟩
  omega

theorem jsIndex_in {α : Type} (l : List α) (k : Nat) (hk : k < l.length) :
    jsIndex l (k : Int) = l.get? k := by
  have hc : (0 : Int) ≤ (k : Int) ∧ ((k : Int)).toNat < l.length := by
    constructor
    · omega
    · omega
  unfold jsIndex
  rw [dif_pos hc, List.get?_eq_get hk]
  congr 1

/-! ## Claim theorems -/

/-- Claim C3: when the trimmed draft text is empty and the attachment list is
empty, or a send is already in flight (`isLoading`), `handleSend` is a silent
no-op: the whole state (draft included) is unchanged, MessageSender is not
invoked, no URL is revoked, and the handler returns normally (no error). -/
theorem send_precondition_gate (s : ComposerState)
    (h : (jsTrim s.value = "" ∧ s.selectedImages = []) ∨ s.isLoading = true) :
    handleSend s = ⟨s, [], [], none⟩ :=
  handleSend_gated s h

/-- Claim C3 witness: a concrete gated call — non-empty draft but a send in
flight. -/
theorem send_precondition_gate_witness :
    handleSend stateLoading = ⟨stateLoading, [], [], none⟩ :=
  send_precondition_gate stateLoading (by decide)

/-- Claim C2 counterexample: sending `sampleState` (draft "hi", one
attachment whose preview URL is "blob:p1") succeeds — MessageSender is
invoked and the draft is cleared — yet the revoked-URL log of the send is
empty: the preview URL of the sent attachment is never released. -/
theorem send_does_not_revoke_previews :
    (handleSend sampleState).calls.length = 1 ∧
    (handleSend sampleState).state.value = "" ∧
    (handleSend sampleState).state.selectedImages = [] ∧
    sampleState.imagePreviews = ["blob:p1"] ∧
    (handleSend sampleState).revoked = [] := by
  decide

/-- Claim C2 (amended): after every successful `handleSend`, `Draft.text` is
`""`, the attachment list is empty and the preview list is cleared, but no
preview URL is revoked by the send — previews are released only by
`removeImage`, so the URLs of sent attachments leak. -/
theorem send_clears_draft (s : ComposerState)
    (h : ¬ ((jsTrim s.value = "" ∧ s.selectedImages = []) ∨ s.isLoading = true)) :
    (handleSend s).state.value = "" ∧
    (handleSend s).state.selectedImages = [] ∧
    (handleSend s).state.imagePreviews = [] ∧
    (handleSend s).revoked = [] := by
  cases heq : s.selectedImages with
  | nil =>
      rw [handleSend_sync s h heq]
      simp [clearDraft]
  | cons f fs =>
      rw [handleSend_async s h (by rw [heq]; simp)]
      simp [clearDraft]

/-- Claim C2 witness: the amended statement at `sampleState`. -/
theorem send_clears_draft_witness :
    (handleSend sampleState).state.value = "" ∧
    (handleSend sampleState).state.selectedImages = [] ∧
    (handleSend sampleState).state.imagePreviews = [] ∧
    (handleSend sampleState).revoked = [] :=
  send_clears_draft sampleState (by decide)

/-- Claim C4: every `handleSend` that passes the precondition gate invokes
MessageSender exactly once, with the draft text as first argument and, as
second argument, the ordered encoded payloads when at least one attachment
exists and `none` (JS `undefined`) when the attachment list is empty. -/
theorem send_invokes_messageSender_once (s : ComposerState)
    (h : ¬ ((jsTrim s.value = "" ∧ s.selectedImages = []) ∨ s.isLoading = true)) :
    (handleSend s).calls =
      [⟨s.value, if s.selectedImages = [] then none
                 else some (s.selectedImages.map encodeFile)⟩] := by
  cases heq : s.selectedImages with
  | nil =>
      rw [handleSend_sync s h heq]
      simp [heq]
  | cons f fs =>
      rw [handleSend_async s h (by rw [heq]; simp)]
      simp [heq]

/-- Claim C4 witness: the two scenarios from the spec — text "Hello" with no
attachments yields the call ("Hello", undefined); empty text with two
attachments yields ("", [payload1, payload2]). -/
theorem send_invokes_messageSender_once_witness :
    (handleSend stateHello).calls = [⟨"Hello", none⟩] ∧
    (handleSend stateTwoImgs).calls = [⟨"", some [encodeFile fileA, encodeFile fileB]⟩] := by
  constructor
  · have h := send_invokes_messageSender_once stateHello (by decide)
    simpa [stateHello] using h
  · have h := send_invokes_messageSender_once stateTwoImgs (by decide)
    simpa [stateTwoImgs] using h

/-- Claim C10: `handleSend` only touches the draft (text, attachment list,
preview list): whether it is gated or completes a send, `isExpanded`,
`isListening`, `showModelDropdown` and `selectedModel` keep the values they
had before the call. -/
theorem send_frame (s : ComposerState) :
    (handleSend s).state.isExpanded = s.isExpanded ∧
    (handleSend s).state.isListening = s.isListening ∧
    (handleSend s).state.showModelDropdown = s.showModelDropdown ∧
    (handleSend s).state.selectedModel = s.selectedModel := by
  by_cases h : (jsTrim s.value = "" ∧ s.selectedImages = []) ∨ s.isLoading = true
  · rw [handleSend_gated s h]
    exact ⟨rfl, rfl, rfl, rfl⟩
  · cases heq : s.selectedImages with
    | nil =>
        rw [handleSend_sync s h heq]
        simp [clearDraft]
    | cons f fs =>
        rw [handleSend_async s h (by rw [heq]; simp)]
        simp [clearDraft]

/-- Claim C1 counterexample: from `sampleState` (draft "hi", one attachment,
`isLoading` false) a second `send()` issued while the first `handleSend` is
suspended at attachment encoding passes the gate again, because `isLoading`
is raised only when MessageSender is actually invoked. The event trace
click, click, resume, resume therefore invokes MessageSender twice — not
exactly once as the claim states for a draft with an attachment. -/
theorem doubleClick_during_encoding_sends_twice :
    (run ⟨sampleState, [], [], []⟩
      [UIEvent.clickSend, UIEvent.clickSend, UIEvent.resumeSend,
       UIEvent.resumeSend]).calls.length = 2 := by
  decide

/-- Claim C1 (amended): once a send has dispatched — MessageSender invoked
and `isLoading` raised by the caller — repeated `send()` calls are no-ops, so
a second `send()` issued after the first call's completion yields exactly one
MessageSender invocation. (A second `send()` issued before dispatch, i.e.
while a draft with at least one attachment is still being encoded, is not
suppressed and produces a second invocation; see the counterexample.) -/
theorem send_noop_while_inflight (s : ComposerState)
    (h1 : s.isLoading = false)
    (h2 : jsTrim s.value ≠ "" ∨ s.selectedImages ≠ []) :
    (run ⟨s, [], [], []⟩
      [UIEvent.clickSend, UIEvent.resumeSend, UIEvent.clickSend,
       UIEvent.resumeSend]).calls.length = 1 := by
  have hg := sendGate_false_of s h1 h2
  cases heq : s.selectedImages with
  | nil =>
      have e1 : step ⟨s, [], [], []⟩ UIEvent.clickSend
          = ⟨{ clearDraft s with isLoading := true }, [], [⟨s.value, none⟩], []⟩ := by
        simp [step, sendPhaseA_sync s hg heq, callerStep]
      simp only [run, List.foldl]
      rw [e1, step_resume_empty _ rfl, step_click_inflight _ rfl, step_resume_empty _ rfl]
      rfl
  | cons f fs =>
      have hne : s.selectedImages ≠ [] := by
        rw [heq]
        simp
      have e1 : step ⟨s, [], [], []⟩ UIEvent.clickSend
          = ⟨s, [⟨s.value, s.selectedImages⟩], [], []⟩ := by
        simp [step, sendPhaseA_suspend s hg hne, callerStep]
      have e2 : step ⟨s, [⟨s.value, s.selectedImages⟩], [], []⟩ UIEvent.resumeSend
          = ⟨{ clearDraft s with isLoading := true }, [],
             [⟨s.value, some (s.selectedImages.map encodeFile)⟩], []⟩ := by
        simp [step, sendPhaseB, callerStep, hne]
      simp only [run, List.foldl]
      rw [e1, e2, step_click_inflight _ rfl, step_resume_empty _ rfl]
      rfl

/-- Claim C1 witness: the amended statement at `sampleState`. -/
theorem send_noop_while_inflight_witness :
    (run ⟨sampleState, [], [], []⟩
      [UIEvent.clickSend, UIEvent.resumeSend, UIEvent.clickSend,
       UIEvent.resumeSend]).calls.length = 1 :=
  send_noop_while_inflight sampleState (by decide) (by decide)

/-- Claim C5 counterexample: with the draft "hi" and a reported content
height of 40px (one short line), the computed height is 40 — equal to the
minimum, not strictly between the minimum and the cap as the claim states
for non-empty, non-expanded drafts. -/
theorem height_not_strictly_between :
    computeHeight false "hi" 40 = 40 ∧
    ¬ (40 < computeHeight false "hi" 40 ∧ computeHeight false "hi" 40 < 180) := by
  decide

/-- Claim C5 (amended): Expanded pins the height at the fixed tall 480px
regardless of text; an empty or whitespace-only draft gives the 40px minimum;
otherwise the height is `min scrollHeight 180` — within the minimum and the
cap inclusive (whenever the browser reports at least the 40px base height)
and monotonically non-decreasing in the content height, up to the cap. Both
bounds are attained, so "strictly between" fails at one-line and at-cap
drafts. -/
theorem computeHeight_spec (v w : String) (ch ch2 : Nat)
    (hv : jsTrim v ≠ "") (hw : jsTrim w = "") (h40 : 40 ≤ ch) (hmono : ch ≤ ch2) :
    computeHeight true v ch = 480 ∧
    computeHeight true w ch = 480 ∧
    computeHeight false w ch = 40 ∧
    computeHeight false v ch = min ch 180 ∧
    40 ≤ computeHeight false v ch ∧
    computeHeight false v ch ≤ 180 ∧
    computeHeight false v ch ≤ computeHeight false v ch2 := by
  have hvv : ¬ (v = "" ∨ jsTrim v = "") := by
    rintro (rfl | h)
    · exact hv jsTrim_empty
    · exact hv h
  have h4 : computeHeight false v ch = min ch 180 := by
    unfold computeHeight
    rw [if_neg (by simp), if_neg hvv]
  have h4b : computeHeight false v ch2 = min ch2 180 := by
    unfold computeHeight
    rw [if_neg (by simp), if_neg hvv]
  refine ⟨rfl, rfl, ?_, h4, ?_, ?_, ?_⟩
  · unfold computeHeight
    rw [if_neg (by simp), if_pos (Or.inr hw)]
  · rw [h4]
    exact le_min h40 (by norm_num)
  · rw [h4]
    exact min_le_right _ _
  · rw [h4, h4b]
    exact min_le_min hmono le_rfl

/-- Claim C5 witness: the amended statement at draft "hi", whitespace draft
" ", content heights 100 and 400. -/
theorem computeHeight_spec_witness :
    computeHeight true "hi" 100 = 480 ∧
    computeHeight true " " 100 = 480 ∧
    computeHeight false " " 100 = 40 ∧
    computeHeight false "hi" 100 = min 100 180 ∧
    40 ≤ computeHeight false "hi" 100 ∧
    computeHeight false "hi" 100 ≤ 180 ∧
    computeHeight false "hi" 100 ≤ computeHeight false "hi" 400 :=
  computeHeight_spec "hi" " " 100 400 (by decide) (by decide) (by norm_num) (by norm_num)

/-- Claim C6: a final dictation transcript is appended to the draft text by
the `onresult` handler, separated by a single space exactly when the existing
text is non-empty. -/
theorem onresult_appends_transcript (s t : String) :
    (s = "" → onresultUpdate s t = t) ∧
    (s ≠ "" → onresultUpdate s t = s ++ " " ++ t) := by
  constructor
  · rintro rfl
    rfl
  · intro h
    simp [onresultUpdate, h]

/-- Claim C6 witness: appending to an empty draft and to the draft "hi". -/
theorem onresult_appends_transcript_witness :
    onresultUpdate "" "hello" = "hello" ∧ onresultUpdate "hi" "there" = "hi there" :=
  ⟨(onresult_appends_transcript "" "hello").1 rfl,
   ((onresult_appends_transcript "hi" "there").2 (by decide)).trans (by decide)⟩

/-- Claim C7: the displayed model name is the `GEMINI_MODELS` name of the
entry whose id equals the selected model id, falling back to the fixed
default "gemma-3-27b-it" when no entry matches; choosing a dropdown entry
sets the selected model to that entry's id and closes the dropdown, after
which the displayed name is that entry's registry name. -/
theorem modelSelector_spec (s : ComposerState) (m : GeminiModel) (id2 : String)
    (hm : m ∈ GEMINI_MODELS) (h2 : ∀ mm ∈ GEMINI_MODELS, mm.id ≠ id2) :
    selectedModelName m.id = m.name ∧
    (selectModel s m).selectedModel = m.id ∧
    (selectModel s m).showModelDropdown = false ∧
    selectedModelName (selectModel s m).selectedModel = m.name ∧
    selectedModelName id2 = "gemma-3-27b-it" := by
  have hname : selectedModelName m.id = m.name := by
    simp [GEMINI_MODELS] at hm
    rcases hm with rfl | rfl | rfl <;> decide
  have hfall : selectedModelName id2 = "gemma-3-27b-it" := by
    have hfind : GEMINI_MODELS.find? (fun mm => mm.id = id2) = none := by
      rw [List.find?_eq_none]
      intro x hx
      simpa using h2 x hx
    simp [selectedModelName, hfind]
  exact ⟨hname, rfl, rfl, hname, hfall⟩

/-- Claim C7 witness: selecting "gemini-2.0-flash-exp" from the dropdown,
plus the fallback at an unmatched id. -/
theorem modelSelector_spec_witness :
    selectedModelName "gemini-2.0-flash-exp" = "Gemini 2.0 Flash Exp" ∧
    (selectModel sampleState ⟨"gemini-2.0-flash-exp", "Gemini 2.0 Flash Exp"⟩).selectedModel
      = "gemini-2.0-flash-exp" ∧
    (selectModel sampleState ⟨"gemini-2.0-flash-exp", "Gemini 2.0 Flash Exp"⟩).showModelDropdown
      = false ∧
    selectedModelName
        (selectModel sampleState ⟨"gemini-2.0-flash-exp", "Gemini 2.0 Flash Exp"⟩).selectedModel
      = "Gemini 2.0 Flash Exp" ∧
    selectedModelName "nope" = "gemma-3-27b-it" :=
  modelSelector_spec sampleState ⟨"gemini-2.0-flash-exp", "Gemini 2.0 Flash Exp"⟩ "nope"
    (by decide) (by decide)

/-- Claim C8: `removeImage` with an index outside the bounds of the
attachment list (negative or past the end) is a silent no-op — the state,
attachment list and preview list are unchanged and nothing is revoked; with
an in-range index it removes exactly the attachment and preview at that
index and revokes that preview's URL. (The attachment and preview lists have
equal length, the component invariant.) -/
theorem removeImage_spec (s : ComposerState) (index : Int)
    (hlen : s.selectedImages.length = s.imagePreviews.length) :
    ((index < 0 ∨ (s.selectedImages.length : Int) ≤ index) →
        removeImage s index = (s, [])) ∧
    (∀ k : Nat, k < s.selectedImages.length → index = (k : Int) →
        (removeImage s index).1.selectedImages = s.selectedImages.eraseIdx k ∧
        (removeImage s index).1.imagePreviews = s.imagePreviews.eraseIdx k ∧
        (removeImage s index).2 = (s.imagePreviews.get? k).toList) := by
  constructor
  · intro h
    unfold removeImage
    rw [filterNeIdxFrom_out index s.selectedImages 0 (by omega),
        filterNeIdxFrom_out index s.imagePreviews 0 (by omega),
        jsIndex_out s.imagePreviews index (by omega)]
    rfl
  · intro k hk hik
    subst hik
    unfold removeImage
    rw [filterNeIdxFrom_in ((k : Int)) s.selectedImages 0 k (by omega) hk,
        filterNeIdxFrom_in ((k : Int)) s.imagePreviews 0 k (by omega) (by omega),
        jsIndex_in s.imagePreviews k (by omega)]
    exact ⟨rfl, rfl, rfl⟩

/-- Claim C8 witness: on a state with two attachments, index 5 is a no-op
and index 0 removes the first attachment and revokes its preview URL. -/
theorem removeImage_spec_witness :
    removeImage stateTwoImgs 5 = (stateTwoImgs, []) ∧
    (removeImage stateTwoImgs 0).1.selectedImages = [fileB] ∧
    (removeImage stateTwoImgs 0).1.imagePreviews = ["blob:p2"] ∧
    (removeImage stateTwoImgs 0).2 = ["blob:p1"] := by
  refine ⟨(removeImage_spec stateTwoImgs 5 (by decide)).1 (by decide), ?_, ?_, ?_⟩
  · exact ((removeImage_spec stateTwoImgs 0 (by decide)).2 0 (by decide) (by decide)).1.trans
      (by decide)
  · exact ((removeImage_spec stateTwoImgs 0 (by decide)).2 0 (by decide) (by decide)).2.1.trans
      (by decide)
  · exact ((removeImage_spec stateTwoImgs 0 (by decide)).2 0 (by decide) (by decide)).2.2.trans
      (by decide)

/-- Claim C9: `handleKeyDown` triggers `handleSend` exactly on Enter without
Shift and then also prevents the default newline; Enter with Shift and every
other key neither trigger a send nor prevent the default (so Shift+Enter
inserts the newline into the draft). -/
theorem keyDown_spec (e : KeyEvent) :
    ((handleKeyDown e).2 = true ↔ (e.key = "Enter" ∧ e.shiftKey = false)) ∧
    (handleKeyDown e).1 = (handleKeyDown e).2 := by
  unfold handleKeyDown
  by_cases h : e.key = "Enter" ∧ e.shiftKey = false
  · rw [if_pos h]
    simpa using h
  · rw [if_neg h]
    simpa using h

end ChatInput
